import Mathlib

/-!
# Library Management System — shallow embedding and verification

This file embeds the application logic of `src/app.py` (a Flask CRUD
application managing Books, Authors and their many-to-many association,
plus a universal search endpoint) and proves/refutes the specification
claims about it.

Modelling conventions:
* The database session is a `LibState`: the Book rows, the Author rows,
  the `book_author` association rows, and the next auto-assigned ids.
* A JSON request body is an `Option` payload (`none` = no body, matching
  Python's `request.get_json()` returning a falsy value); each payload
  field is `Option (Option _)`: outer `none` = field absent from the
  payload, `some none` = field present with JSON `null`, `some (some v)`
  = field present with value `v`.
* A handler returns `Resp × LibState`: the JSON envelope plus the state
  after `db.session.commit()`.  `Resp.err s m` models
  `{'success': False, 'error': m}` with HTTP status `s`; the `ok`
  constructors model `{'success': True, ...}` responses.
* SQLAlchemy's `ilike(f'%{query}%')` is embedded as `likeMatch`, a SQL
  LIKE matcher in which `%` matches any character sequence, `_` matches
  exactly one character, and all other characters compare after ASCII
  lower-casing (SQLite's LIKE folds ASCII case only).  Note the query is
  interpolated into the pattern unescaped, exactly as in the source.
-/

/-- A stored Book row (`class Book`).  `title` is modelled as
`Option String` because the update handler assigns whatever value the
payload carries, including JSON `null`, to the column attribute. -/
structure Book where
  id : Nat
  title : Option String
  year : Option Int
  isbn : Option String
deriving Repr, DecidableEq

/-- A stored Author row (`class Author`). -/
structure Author where
  id : Nat
  name : Option String
  birth_year : Option Int
  country : Option String
deriving Repr, DecidableEq

/-- The database state: Book rows, Author rows, the `book_author`
association rows `(book_id, author_id)`, and the next auto-increment ids. -/
structure LibState where
  books : List Book
  authors : List Author
  assoc : List (Nat × Nat)
  nextBookId : Nat
  nextAuthorId : Nat
deriving Repr, DecidableEq

/-- JSON body of a Book create/update request.  Outer `Option`: field
present in the dict; inner `Option`: JSON `null` vs a value. -/
structure BookPayload where
  title : Option (Option String) := none
  year : Option (Option Int) := none
  isbn : Option (Option String) := none
  author_ids : Option (List Nat) := none
deriving Repr, DecidableEq

/-- JSON body of an Author create/update request. -/
structure AuthorPayload where
  name : Option (Option String) := none
  birth_year : Option (Option Int) := none
  country : Option (Option String) := none
deriving Repr, DecidableEq

/-- `not data` on a JSON dict: an empty dict is falsy in Python. -/
def BookPayload.isEmpty (p : BookPayload) : Bool :=
  p.title.isNone && p.year.isNone && p.isbn.isNone && p.author_ids.isNone

/-- `not data` on a JSON dict for Author payloads. -/
def AuthorPayload.isEmpty (p : AuthorPayload) : Bool :=
  p.name.isNone && p.birth_year.isNone && p.country.isNone

/-- Python truthiness of `data.get(field)` for a string field: truthy iff
the field is present, not `null`, and not the empty string. -/
def truthyS (v : Option (Option String)) : Bool :=
  match v with
  | some (some s) => !(s == "")
  | _ => false

/-- `data.get(field)`: absent and `null` both collapse to `None`. -/
def getS (v : Option (Option String)) : Option String := v.getD none

/-- `data.get(field)` for integer fields. -/
def getI (v : Option (Option Int)) : Option Int := v.getD none

/-- `if field in data: obj.field = data[field]` — the partial-update
assignment: an absent field keeps the old value, a present field (even
`null`) overwrites it. -/
def applyField {α : Type} (new : Option (Option α)) (old : Option α) : Option α :=
  match new with
  | none => old
  | some v => v

/-- `Book.query.get(id)` over the state. -/
def findBook (s : LibState) (id : Nat) : Option Book :=
  s.books.find? (fun b => b.id == id)

/-- `Author.query.get(id)` over the state. -/
def findAuthor (s : LibState) (id : Nat) : Option Author :=
  s.authors.find? (fun a => a.id == id)

/-- `book.authors`: the Author rows linked to a book id through the
association table. -/
def authorsOf (s : LibState) (bid : Nat) : List Author :=
  s.authors.filter (fun a => s.assoc.any (fun p => p.1 == bid && p.2 == a.id))

/-- `author.books`: the Book rows linked to an author id through the
association table. -/
def booksOf (s : LibState) (aid : Nat) : List Book :=
  s.books.filter (fun b => s.assoc.any (fun p => p.1 == b.id && p.2 == aid))

/-- The loop `for author_id in ids: if Author.query.get(author_id): append`
— keeps exactly the ids that name an existing Author. -/
def resolveAuthors (s : LibState) (ids : List Nat) : List Nat :=
  ids.filter (fun i => (findAuthor s i).isSome)

/-- JSON response envelope together with its HTTP status code.
`err` carries `success=false` plus the error string; the other
constructors carry `success=true` payloads. -/
inductive Resp where
  | err (status : Nat) (msg : String)
  | bookOk (status : Nat) (book : Book) (authors : List Author)
  | authorOk (status : Nat) (author : Author) (books : List Book)
  | deleted (status : Nat)
  | searchOk (status : Nat) (books : List Book) (authors : List Author)
      (book_count author_count : Nat)
deriving Repr, DecidableEq

/-- Handler `create_book` (POST /api/books). -/
def create_book (s : LibState) (data? : Option BookPayload) : Resp × LibState :=
  match data? with
  | none => (.err 400 "No data provided", s)
  | some data =>
    if data.isEmpty then (.err 400 "No data provided", s)
    else if !truthyS data.title then (.err 400 "Title is required", s)
    else if truthyS data.isbn && s.books.any (fun b => b.isbn == getS data.isbn) then
      (.err 400 "ISBN already exists", s)
    else
      let newBook : Book :=
        { id := s.nextBookId, title := getS data.title,
          year := getI data.year, isbn := getS data.isbn }
      -- `if data.get('author_ids'):` — a missing, null or empty list adds
      -- nothing, which coincides with resolving the empty list.
      let aids := resolveAuthors s (data.author_ids.getD [])
      let s' : LibState :=
        { s with books := s.books ++ [newBook],
                 assoc := s.assoc ++ aids.map (fun a => (newBook.id, a)),
                 nextBookId := s.nextBookId + 1 }
      (.bookOk 201 newBook (authorsOf s' newBook.id), s')

/-- Handler `get_book` (GET /api/books/id). -/
def get_book (s : LibState) (id : Nat) : Resp :=
  match findBook s id with
  | none => .err 404 "Book not found"
  | some b => .bookOk 200 b (authorsOf s id)

/-- Handler `update_book` (PUT /api/books/id).  The not-found check runs
before the body check; fields present in the payload overwrite, absent
fields are kept; a present `author_ids` list replaces the association
rows of this book. -/
def update_book (s : LibState) (id : Nat) (data? : Option BookPayload) :
    Resp × LibState :=
  match findBook s id with
  | none => (.err 404 "Book not found", s)
  | some book =>
    match data? with
    | none => (.err 400 "No data provided", s)
    | some data =>
      if data.isEmpty then (.err 400 "No data provided", s)
      else
        let book' : Book :=
          { book with title := applyField data.title book.title,
                      year := applyField data.year book.year,
                      isbn := applyField data.isbn book.isbn }
        let assoc' := match data.author_ids with
          | none => s.assoc
          | some ids =>
              s.assoc.filter (fun p => p.1 != id) ++
                (resolveAuthors s ids).map (fun a => (id, a))
        let s' : LibState :=
          { s with books := s.books.map (fun b => if b.id == id then book' else b),
                   assoc := assoc' }
        (.bookOk 200 book' (authorsOf s' id), s')

/-- Handler `delete_book` (DELETE /api/books/id): removes the Book row and
its association rows; unknown id gives 404. -/
def delete_book (s : LibState) (id : Nat) : Resp × LibState :=
  match findBook s id with
  | none => (.err 404 "Book not found", s)
  | some _ =>
    (.deleted 200,
     { s with books := s.books.filter (fun b => b.id != id),
              assoc := s.assoc.filter (fun p => p.1 != id) })

/-- Handler `create_author` (POST /api/authors). -/
def create_author (s : LibState) (data? : Option AuthorPayload) :
    Resp × LibState :=
  match data? with
  | none => (.err 400 "No data provided", s)
  | some data =>
    if data.isEmpty then (.err 400 "No data provided", s)
    else if !truthyS data.name then (.err 400 "Name is required", s)
    else
      let newAuthor : Author :=
        { id := s.nextAuthorId, name := getS data.name,
          birth_year := getI data.birth_year, country := getS data.country }
      let s' : LibState :=
        { s with authors := s.authors ++ [newAuthor],
                 nextAuthorId := s.nextAuthorId + 1 }
      (.authorOk 201 newAuthor (booksOf s' newAuthor.id), s')

/-- Handler `get_author` (GET /api/authors/id). -/
def get_author (s : LibState) (id : Nat) : Resp :=
  match findAuthor s id with
  | none => .err 404 "Author not found"
  | some a => .authorOk 200 a (booksOf s id)

/-- Handler `update_author` (PUT /api/authors/id). -/
def update_author (s : LibState) (id : Nat) (data? : Option AuthorPayload) :
    Resp × LibState :=
  match findAuthor s id with
  | none => (.err 404 "Author not found", s)
  | some author =>
    match data? with
    | none => (.err 400 "No data provided", s)
    | some data =>
      if data.isEmpty then (.err 400 "No data provided", s)
      else
        let author' : Author :=
          { author with name := applyField data.name author.name,
                        birth_year := applyField data.birth_year author.birth_year,
                        country := applyField data.country author.country }
        let s' : LibState :=
          { s with authors := s.authors.map (fun a => if a.id == id then author' else a) }
        (.authorOk 200 author' (booksOf s' id), s')

/-- Handler `delete_author` (DELETE /api/authors/id). -/
def delete_author (s : LibState) (id : Nat) : Resp × LibState :=
  match findAuthor s id with
  | none => (.err 404 "Author not found", s)
  | some _ =>
    (.deleted 200,
     { s with authors := s.authors.filter (fun a => a.id != id),
              assoc := s.assoc.filter (fun p => p.2 != id) })

/-! ## SQL LIKE matching (`ilike`) and string helpers -/

/-- ASCII-only lower-casing, the case folding SQLite's LIKE applies. -/
def asciiLower (c : Char) : Char :=
  if 'A' ≤ c && c ≤ 'Z' then Char.ofNat (c.toNat + 32) else c

/-- Fueled SQL LIKE matcher: `%` matches any sequence, `_` exactly one
character, others compare after ASCII lower-casing.  The fuel only bounds
recursion depth; `likeMatch` always supplies enough. -/
def likeAux : Nat → List Char → List Char → Bool
  | 0, _, _ => false
  | _ + 1, [], t => t.isEmpty
  | n + 1, c :: ps, t =>
    if c = '%' then
      likeAux n ps t ||
        (match t with
         | [] => false
         | _ :: ts => likeAux n (c :: ps) ts)
    else
      match t with
      | [] => false
      | d :: ts =>
          (if c = '_' then true else asciiLower c == asciiLower d) && likeAux n ps ts

/-- `pattern LIKE`-matches `text` (case-insensitive, SQLite semantics). -/
def likeMatch (pat text : List Char) : Bool :=
  likeAux (pat.length + text.length + 1) pat text

/-- `Book.title.ilike(f'%{q}%')`: a NULL column never matches. -/
def titleIlike (q : String) (b : Book) : Bool :=
  match b.title with
  | some t => likeMatch ('%' :: (q.data ++ ['%'])) t.data
  | none => false

/-- `Author.name.ilike(f'%{q}%')`. -/
def nameIlike (q : String) (a : Author) : Bool :=
  match a.name with
  | some t => likeMatch ('%' :: (q.data ++ ['%'])) t.data
  | none => false

/-- Python `str.strip()` whitespace predicate: the characters for which
`str.isspace()` is true — U+0009–U+000D, U+001C–U+001F, space, U+0085
(NEL), U+00A0 (NBSP), U+1680, U+2000–U+200A, U+2028, U+2029, U+202F,
U+205F and U+3000. -/
def isPySpace (c : Char) : Bool :=
  let n := c.toNat
  (0x09 ≤ n && n ≤ 0x0D) || (0x1C ≤ n && n ≤ 0x1F) || n == 0x20 ||
    n == 0x85 || n == 0xA0 || n == 0x1680 ||
    (0x2000 ≤ n && n ≤ 0x200A) || n == 0x2028 || n == 0x2029 ||
    n == 0x202F || n == 0x205F || n == 0x3000

/-- Python `q.strip()`. -/
def pyStrip (q : String) : String :=
  ⟨((q.data.dropWhile isPySpace).reverse.dropWhile isPySpace).reverse⟩

/-! ## Search endpoint -/

/-- `books_by_title`: set B1 of the search algorithm. -/
def searchB1 (s : LibState) (q : String) : List Book :=
  s.books.filter (titleIlike q)

/-- `authors_by_name`: set A1 of the search algorithm. -/
def searchA1 (s : LibState) (q : String) : List Author :=
  s.authors.filter (nameIlike q)

/-- `all_books = list(set(books_by_title + books_by_author_name))`:
B1 plus every book of every author in A1, de-duplicated. -/
def searchBooksRes (s : LibState) (q : String) : List Book :=
  (searchB1 s q ++ (searchA1 s q).flatMap (fun a => booksOf s a.id)).dedup

/-- `all_authors = list(set(authors_by_name + authors_by_book_title))`:
A1 plus every author of every book in B1, de-duplicated. -/
def searchAuthorsRes (s : LibState) (q : String) : List Author :=
  (searchA1 s q ++ (searchB1 s q).flatMap (fun b => authorsOf s b.id)).dedup

/-- Handler `search_all` (GET /api/search): strips the query, rejects an
empty result of the strip with 400, otherwise returns both result sets
with their counts. -/
def search_all (s : LibState) (q : String) : Resp :=
  let query := pyStrip q
  if query == "" then .err 400 "Search query is required"
  else
    .searchOk 200 (searchBooksRes s query) (searchAuthorsRes s query)
      (searchBooksRes s query).length (searchAuthorsRes s query).length

/-! ## Specification-side string predicates and LIKE lemmas -/

/-- Case-sensitive list prefix test. -/
def startsWithL : List Char → List Char → Bool
  | [], _ => true
  | _ :: _, [] => false
  | c :: ps, d :: ts => c == d && startsWithL ps ts

/-- Case-sensitive contiguous-sublist (infix) test. -/
def infixOfL (p : List Char) : List Char → Bool
  | [] => p.isEmpty
  | d :: ts => startsWithL p (d :: ts) || infixOfL p ts

/-- Modelled from the spec: "case-insensitive substring match" — `q`
occurs in `t` as a contiguous substring, comparing ASCII-lower-cased
characters. -/
def containsCI (q t : String) : Bool :=
  infixOfL (q.data.map asciiLower) (t.data.map asciiLower)

/-- The query contains no SQL LIKE wildcard character. -/
def noWildQ (q : String) : Bool :=
  q.data.all (fun c => !(c == '%') && !(c == '_'))

/-! ## Invariants and concrete states -/

/-- The spec's ISBN invariant as stated: no two stored Books carry the
same non-null ISBN (an earlier row with a present ISBN never shares it
with a later row). -/
def NonNullIsbnUnique (s : LibState) : Prop :=
  s.books.Pairwise (fun b1 b2 => b1.isbn.isSome → b1.isbn ≠ b2.isbn)

/-- The invariant the application actually maintains on create: no two
stored Books carry the same non-null, non-empty ISBN (the empty string is
falsy in Python, so the duplicate check skips it). -/
def NonEmptyIsbnUnique (s : LibState) : Prop :=
  s.books.Pairwise (fun b1 b2 => b1.isbn ≠ none → b1.isbn ≠ some "" → b1.isbn ≠ b2.isbn)

instance (s : LibState) : Decidable (NonNullIsbnUnique s) :=
  inferInstanceAs
    (Decidable (s.books.Pairwise
      (fun b1 b2 : Book => b1.isbn.isSome → b1.isbn ≠ b2.isbn)))

instance (s : LibState) : Decidable (NonEmptyIsbnUnique s) :=
  inferInstanceAs
    (Decidable (s.books.Pairwise
      (fun b1 b2 : Book => b1.isbn ≠ none → b1.isbn ≠ some "" → b1.isbn ≠ b2.isbn)))

/-- Auto-increment discipline: every stored id is below the next id to be
assigned, and no association row mentions a not-yet-assigned book id.
Holds for every state reachable from an empty database. -/
def FreshIds (s : LibState) : Prop :=
  (∀ b ∈ s.books, b.id ≠ s.nextBookId) ∧ (∀ a ∈ s.authors, a.id ≠ s.nextAuthorId) ∧
    (∀ pr ∈ s.assoc, pr.1 ≠ s.nextBookId)

/-- A small populated library used to instantiate theorems with
hypotheses at concrete inputs. -/
def sampleState : LibState :=
  { books := [⟨1, some "1984", some 1949, some "isbn1"⟩,
              ⟨2, some "Animal Farm", some 1945, some "isbn2"⟩,
              ⟨3, some "The Shining", some 1977, some "isbn3"⟩],
    authors := [⟨1, some "George Orwell", some 1903, some "UK"⟩,
                ⟨2, some "Stephen King", some 1947, some "US"⟩],
    assoc := [(1, 1), (2, 1), (3, 2)],
    nextBookId := 4, nextAuthorId := 3 }

/-- Two books with distinct ISBNs "X" and "Y". -/
def dupIsbnState : LibState :=
  { books := [⟨1, some "A", none, some "X"⟩, ⟨2, some "B", none, some "Y"⟩],
    authors := [], assoc := [], nextBookId := 3, nextAuthorId := 1 }

/-- One book whose stored ISBN is the empty string (reachable: create
with `isbn = ""` skips the duplicate check and stores `""`). -/
def emptyIsbnState : LibState :=
  { books := [⟨1, some "A", none, some ""⟩],
    authors := [], assoc := [], nextBookId := 2, nextAuthorId := 1 }

/-- One book whose title "ab" contains no underscore. -/
def wildTitleState : LibState :=
  { books := [⟨1, some "ab", none, none⟩],
    authors := [], assoc := [], nextBookId := 2, nextAuthorId := 1 }

theorem likeAux_mono : ∀ (n m : Nat) (p t : List Char),
    p.length + t.length < n → p.length + t.length < m →
    likeAux n p t = likeAux m p t := by
  intro n
  induction n with
  | zero => intro m p t hn _hm; exact absurd hn (Nat.not_lt_zero _)
  | succ n ih =>
    intro m p t hn hm
    cases m with
    | zero => exact absurd hm (Nat.not_lt_zero _)
    | succ m =>
      cases p with
      | nil => simp [likeAux]
      | cons c ps =>
        by_cases hc : c = '%'
        · subst hc
          cases t with
          | nil =>
            show (likeAux n ps [] || false) = (likeAux m ps [] || false)
            rw [ih m ps []
                  (by simp only [List.length_cons, List.length_nil] at hn ⊢; omega)
                  (by simp only [List.length_cons, List.length_nil] at hm ⊢; omega)]
          | cons d ts =>
            show (likeAux n ps (d :: ts) || likeAux n ('%' :: ps) ts) =
                 (likeAux m ps (d :: ts) || likeAux m ('%' :: ps) ts)
            rw [ih m ps (d :: ts)
                  (by simp only [List.length_cons] at hn ⊢; omega)
                  (by simp only [List.length_cons] at hm ⊢; omega),
                ih m ('%' :: ps) ts
                  (by simp only [List.length_cons] at hn ⊢; omega)
                  (by simp only [List.length_cons] at hm ⊢; omega)]
        · cases t with
          | nil => simp [likeAux, hc]
          | cons d ts =>
            have e1 : likeAux (n + 1) (c :: ps) (d :: ts) =
                (if c = '%' then likeAux n ps (d :: ts) || likeAux n (c :: ps) ts
                 else (if c = '_' then true else asciiLower c == asciiLower d) &&
                   likeAux n ps ts) := rfl
            have e2 : likeAux (m + 1) (c :: ps) (d :: ts) =
                (if c = '%' then likeAux m ps (d :: ts) || likeAux m (c :: ps) ts
                 else (if c = '_' then true else asciiLower c == asciiLower d) &&
                   likeAux m ps ts) := rfl
            rw [e1, e2, if_neg hc, if_neg hc,
                ih m ps ts
                  (by simp only [List.length_cons] at hn ⊢; omega)
                  (by simp only [List.length_cons] at hm ⊢; omega)]

/-- A `likeAux` call with sufficient fuel computes `likeMatch`. -/
theorem likeAux_eq (n : Nat) (p t : List Char) (h : p.length + t.length < n) :
    likeAux n p t = likeMatch p t :=
  likeAux_mono n (p.length + t.length + 1) p t h (by omega)

theorem likeMatch_nil (t : List Char) : likeMatch [] t = t.isEmpty := by
  cases t <;> rfl

theorem likeMatch_pct_nilT (ps : List Char) :
    likeMatch ('%' :: ps) [] = likeMatch ps [] := by
  show (likeMatch ps [] || false) = likeMatch ps []
  exact Bool.or_false _

theorem likeMatch_pct_cons (ps : List Char) (d : Char) (ts : List Char) :
    likeMatch ('%' :: ps) (d :: ts) =
      (likeMatch ps (d :: ts) || likeMatch ('%' :: ps) ts) := by
  have h1 : likeMatch ('%' :: ps) (d :: ts) =
      (likeAux (ps.length + 1 + (ts.length + 1)) ps (d :: ts) ||
       likeAux (ps.length + 1 + (ts.length + 1)) ('%' :: ps) ts) := rfl
  rw [h1, likeAux_eq _ _ _ (by simp only [List.length_cons]; omega),
      likeAux_eq _ _ _ (by simp only [List.length_cons]; omega)]

theorem likeMatch_cons_nilT (c : Char) (ps : List Char) (hc : c ≠ '%') :
    likeMatch (c :: ps) [] = false := by
  have h1 : likeMatch (c :: ps) [] =
      (if c = '%' then likeAux (ps.length + 1) ps [] || false else false) := rfl
  rw [h1, if_neg hc]

theorem likeMatch_cons (c : Char) (ps : List Char) (d : Char) (ts : List Char)
    (hc : c ≠ '%') :
    likeMatch (c :: ps) (d :: ts) =
      ((if c = '_' then true else asciiLower c == asciiLower d) && likeMatch ps ts) := by
  have h1 : likeMatch (c :: ps) (d :: ts) =
      (if c = '%' then
        likeAux (ps.length + 1 + (ts.length + 1)) ps (d :: ts) ||
          likeAux (ps.length + 1 + (ts.length + 1)) (c :: ps) ts
       else (if c = '_' then true else asciiLower c == asciiLower d) &&
          likeAux (ps.length + 1 + (ts.length + 1)) ps ts) := rfl
  rw [h1, if_neg hc, likeAux_eq _ _ _ (by omega)]

theorem like_pct_nil (t : List Char) : likeMatch ['%'] t = true := by
  induction t with
  | nil => rfl
  | cons d ts ih => rw [likeMatch_pct_cons]; simp [ih]

theorem like_lit_append : ∀ (p t : List Char),
    p.all (fun c => !(c == '%') && !(c == '_')) = true →
    likeMatch (p ++ ['%']) t = startsWithL (p.map asciiLower) (t.map asciiLower) := by
  intro p
  induction p with
  | nil => intro t _; simp [like_pct_nil, startsWithL]
  | cons c ps ih =>
    intro t hw
    simp only [List.all_cons, Bool.and_eq_true, Bool.not_eq_true',
      beq_eq_false_iff_ne] at hw
    obtain ⟨⟨hcp, hcu⟩, hps⟩ := hw
    have hw' : ps.all (fun c => !(c == '%') && !(c == '_')) = true := by
      simp only [List.all_eq_true] at hps ⊢
      intro x hx
      simpa using hps x hx
    cases t with
    | nil =>
      rw [show (c :: ps) ++ ['%'] = c :: (ps ++ ['%']) from rfl,
          likeMatch_cons_nilT _ _ hcp]
      simp [startsWithL]
    | cons d ts =>
      rw [show (c :: ps) ++ ['%'] = c :: (ps ++ ['%']) from rfl,
          likeMatch_cons _ _ _ _ hcp, if_neg hcu, ih ts hw']
      simp [startsWithL]

theorem like_contains (p t : List Char)
    (hw : p.all (fun c => !(c == '%') && !(c == '_')) = true) :
    likeMatch ('%' :: (p ++ ['%'])) t = infixOfL (p.map asciiLower) (t.map asciiLower) := by
  induction t with
  | nil =>
    rw [likeMatch_pct_nilT, like_lit_append p [] hw]
    cases p <;> simp [startsWithL, infixOfL]
  | cons d ts ih =>
    rw [likeMatch_pct_cons, like_lit_append p (d :: ts) hw, ih]
    simp [infixOfL]

/-! ## General helper lemmas -/

theorem mem_booksOf (s : LibState) (aid : Nat) (b : Book) :
    b ∈ booksOf s aid ↔ b ∈ s.books ∧ (b.id, aid) ∈ s.assoc := by
  simp only [booksOf, List.mem_filter, List.any_eq_true, Bool.and_eq_true, beq_iff_eq]
  constructor
  · rintro ⟨hm, p, hp, h1, h2⟩
    refine ⟨hm, ?_⟩
    cases p
    simp only at h1 h2
    rw [← h1, ← h2]
    exact hp
  · rintro ⟨hm, hp⟩
    exact ⟨hm, (b.id, aid), hp, rfl, rfl⟩

theorem mem_authorsOf (s : LibState) (bid : Nat) (a : Author) :
    a ∈ authorsOf s bid ↔ a ∈ s.authors ∧ (bid, a.id) ∈ s.assoc := by
  simp only [authorsOf, List.mem_filter, List.any_eq_true, Bool.and_eq_true, beq_iff_eq]
  constructor
  · rintro ⟨hm, p, hp, h1, h2⟩
    refine ⟨hm, ?_⟩
    cases p
    simp only at h1 h2
    rw [← h1, ← h2]
    exact hp
  · rintro ⟨hm, hp⟩
    exact ⟨hm, (bid, a.id), hp, rfl, rfl⟩

/-- Replacing the row with a given id in a list leaves `find?` by that id
pointing at the replacement, provided the replacement keeps the id. -/
theorem find?_replace_book (l : List Book) (id : Nat) (x x' : Book)
    (hfind : l.find? (fun b => b.id == id) = some x) (hid : x'.id = x.id) :
    (l.map (fun b => if b.id == id then x' else b)).find? (fun b => b.id == id) =
      some x' := by
  have hxid : x.id = id := by simpa using List.find?_some hfind
  rw [List.find?_map]
  have hpf : ((fun b : Book => b.id == id) ∘ (fun b => if b.id == id then x' else b)) =
      (fun b : Book => b.id == id) := by
    funext y
    by_cases hy : y.id = id
    · simp [hy, hid, hxid]
    · simp [hy]
  rw [hpf, hfind]
  simp [hxid, hid]

theorem find?_replace_author (l : List Author) (id : Nat) (x x' : Author)
    (hfind : l.find? (fun a => a.id == id) = some x) (hid : x'.id = x.id) :
    (l.map (fun a => if a.id == id then x' else a)).find? (fun a => a.id == id) =
      some x' := by
  have hxid : x.id = id := by simpa using List.find?_some hfind
  rw [List.find?_map]
  have hpf : ((fun a : Author => a.id == id) ∘ (fun a => if a.id == id then x' else a)) =
      (fun a : Author => a.id == id) := by
    funext y
    by_cases hy : y.id = id
    · simp [hy, hid, hxid]
    · simp [hy]
  rw [hpf, hfind]
  simp [hxid, hid]

theorem truthyS_isEmpty_book (p : BookPayload) (h : truthyS p.title = true) :
    p.isEmpty = false := by
  rcases p with ⟨t, y, i, a⟩
  cases t with
  | none => simp [truthyS] at h
  | some v => simp [BookPayload.isEmpty]

theorem truthyS_isEmpty_author (p : AuthorPayload) (h : truthyS p.name = true) :
    p.isEmpty = false := by
  rcases p with ⟨n, y, c⟩
  cases n with
  | none => simp [truthyS] at h
  | some v => simp [AuthorPayload.isEmpty]

/-! ## Claim theorems -/

/-- C7: GET /api/search rejects every query whose stripped form is empty
(i.e. every empty or whitespace-only query) with a 400 error envelope
(`success=false` with an error string, not an empty result set), and for
every query containing a non-whitespace character it answers 200 with
`success=true` and both result sets. -/
theorem search_query_validation (s : LibState) (q : String) :
    (pyStrip q = "" → search_all s q = .err 400 "Search query is required") ∧
    (pyStrip q ≠ "" →
      search_all s q =
        .searchOk 200 (searchBooksRes s (pyStrip q)) (searchAuthorsRes s (pyStrip q))
          (searchBooksRes s (pyStrip q)).length (searchAuthorsRes s (pyStrip q)).length) := by
  constructor <;> intro h <;> simp [search_all, h]

/-- Witness for C7: an ASCII-whitespace-only query and a no-break-space
(U+00A0) query are both rejected, and a non-empty query succeeds, on the
sample library. -/
theorem search_query_validation_witness :
    search_all sampleState "   " = .err 400 "Search query is required" ∧
    search_all sampleState "\u00A0" = .err 400 "Search query is required" ∧
    search_all sampleState "orwell" =
      .searchOk 200 (searchBooksRes sampleState (pyStrip "orwell"))
        (searchAuthorsRes sampleState (pyStrip "orwell"))
        (searchBooksRes sampleState (pyStrip "orwell")).length
        (searchAuthorsRes sampleState (pyStrip "orwell")).length :=
  ⟨(search_query_validation sampleState "   ").1 (by decide),
   (search_query_validation sampleState "\u00A0").1 (by decide),
   (search_query_validation sampleState "orwell").2 (by decide)⟩

/-- C10: in both update endpoints the not-found check precedes body
validation — an unknown id yields 404 for every body, including a missing
or empty one; the 400 "No data provided" error arises only when the
entity exists; and in every error case the state is returned unchanged. -/
theorem update_notfound_precedence (s : LibState) (idB idA idB2 idA2 : Nat)
    (b : Book) (a : Author)
    (hB : findBook s idB = none) (hA : findAuthor s idA = none)
    (hB2 : findBook s idB2 = some b) (hA2 : findAuthor s idA2 = some a) :
    (∀ data?, update_book s idB data? = (.err 404 "Book not found", s)) ∧
    (∀ data?, update_author s idA data? = (.err 404 "Author not found", s)) ∧
    update_book s idB2 none = (.err 400 "No data provided", s) ∧
    (∀ p : BookPayload, p.isEmpty = true →
      update_book s idB2 (some p) = (.err 400 "No data provided", s)) ∧
    update_author s idA2 none = (.err 400 "No data provided", s) ∧
    (∀ p : AuthorPayload, p.isEmpty = true →
      update_author s idA2 (some p) = (.err 400 "No data provided", s)) := by
  refine ⟨fun d => ?_, fun d => ?_, ?_, fun p hp => ?_, ?_, fun p hp => ?_⟩
  · simp [update_book, hB]
  · simp [update_author, hA]
  · simp [update_book, hB2]
  · simp [update_book, hB2, hp]
  · simp [update_author, hA2]
  · simp [update_author, hA2, hp]

/-- Witness for C10 on the sample library: id 99 is unknown (404 even with
no body), id 1 exists (400 on empty body, state unchanged). -/
theorem update_notfound_precedence_witness :
    update_book sampleState 99 none = (.err 404 "Book not found", sampleState) ∧
    update_author sampleState 99 none = (.err 404 "Author not found", sampleState) ∧
    update_book sampleState 1 none = (.err 400 "No data provided", sampleState) ∧
    update_book sampleState 1 (some ⟨none, none, none, none⟩) =
      (.err 400 "No data provided", sampleState) ∧
    update_author sampleState 1 none = (.err 400 "No data provided", sampleState) ∧
    update_author sampleState 1 (some ⟨none, none, none⟩) =
      (.err 400 "No data provided", sampleState) := by
  have h := update_notfound_precedence sampleState 99 99 1 1
    ⟨1, some "1984", some 1949, some "isbn1"⟩ ⟨1, some "George Orwell", some 1903, some "UK"⟩
    (by decide) (by decide) (by decide) (by decide)
  exact ⟨h.1 none, h.2.1 none, h.2.2.1, h.2.2.2.1 ⟨none, none, none, none⟩ (by decide),
    h.2.2.2.2.1, h.2.2.2.2.2 ⟨none, none, none⟩ (by decide)⟩

theorem find?_const_false {α : Type} (l : List α) : l.find? (fun _ => false) = none := by
  rw [List.find?_eq_none]
  intro x _
  simp

theorem find?_filter_ne_book (l : List Book) (id : Nat) :
    (l.filter (fun x => x.id != id)).find? (fun x => x.id == id) = none := by
  rw [List.find?_eq_none]
  intro x hx
  simp only [List.mem_filter, bne_iff_ne, ne_eq] at hx
  simp [hx.2]

theorem find?_filter_ne_author (l : List Author) (id : Nat) :
    (l.filter (fun x => x.id != id)).find? (fun x => x.id == id) = none := by
  rw [List.find?_eq_none]
  intro x hx
  simp only [List.mem_filter, bne_iff_ne, ne_eq] at hx
  simp [hx.2]

theorem delete_book_found (s : LibState) (id : Nat) (b : Book)
    (hB : findBook s id = some b) :
    delete_book s id =
      (.deleted 200,
       { s with books := s.books.filter (fun x => x.id != id),
                assoc := s.assoc.filter (fun p => p.1 != id) }) := by
  simp [delete_book, hB]

theorem delete_author_found (s : LibState) (id : Nat) (a : Author)
    (hA : findAuthor s id = some a) :
    delete_author s id =
      (.deleted 200,
       { s with authors := s.authors.filter (fun x => x.id != id),
                assoc := s.assoc.filter (fun p => p.2 != id) }) := by
  simp [delete_author, hA]

/-- C8: DELETE /api/books/{id} on an existing Book answers 200, removes
exactly the Book rows with that id and every association row referencing
it (so the Book no longer appears in any Author's book list), deletes no
Author, keeps every other association row; a second delete of the same
id — and any delete of an unknown id — answers 404 "not found" with the
state unchanged.  The symmetric statements hold for
DELETE /api/authors/{id}. -/
theorem delete_semantics (s : LibState) (idB idA : Nat) (b : Book) (a : Author)
    (hB : findBook s idB = some b) (hA : findAuthor s idA = some a) :
    ((delete_book s idB).1 = .deleted 200 ∧
      (∀ x, x ∈ (delete_book s idB).2.books ↔ x ∈ s.books ∧ x.id ≠ idB) ∧
      (delete_book s idB).2.authors = s.authors ∧
      (∀ pr, pr ∈ (delete_book s idB).2.assoc ↔ pr ∈ s.assoc ∧ pr.1 ≠ idB) ∧
      (∀ aid, ∀ x ∈ booksOf (delete_book s idB).2 aid, x.id ≠ idB) ∧
      delete_book (delete_book s idB).2 idB =
        (.err 404 "Book not found", (delete_book s idB).2)) ∧
    (∀ j, findBook s j = none → delete_book s j = (.err 404 "Book not found", s)) ∧
    ((delete_author s idA).1 = .deleted 200 ∧
      (∀ x, x ∈ (delete_author s idA).2.authors ↔ x ∈ s.authors ∧ x.id ≠ idA) ∧
      (delete_author s idA).2.books = s.books ∧
      (∀ pr, pr ∈ (delete_author s idA).2.assoc ↔ pr ∈ s.assoc ∧ pr.2 ≠ idA) ∧
      (∀ bid, ∀ x ∈ authorsOf (delete_author s idA).2 bid, x.id ≠ idA) ∧
      delete_author (delete_author s idA).2 idA =
        (.err 404 "Author not found", (delete_author s idA).2)) ∧
    (∀ j, findAuthor s j = none → delete_author s j = (.err 404 "Author not found", s)) := by
  rw [delete_book_found s idB b hB, delete_author_found s idA a hA]
  refine ⟨⟨rfl, ?_, rfl, ?_, ?_, ?_⟩, fun j hj => by simp [delete_book, hj],
          ⟨rfl, ?_, rfl, ?_, ?_, ?_⟩, fun j hj => by simp [delete_author, hj]⟩
  · intro x; simp [List.mem_filter]
  · intro pr; simp [List.mem_filter]
  · intro aid x hx
    rw [mem_booksOf] at hx
    have := hx.1
    simp only [List.mem_filter, bne_iff_ne, ne_eq] at this
    exact this.2
  · simp [delete_book, findBook, find?_const_false]
  · intro x; simp [List.mem_filter]
  · intro pr; simp [List.mem_filter]
  · intro bid x hx
    rw [mem_authorsOf] at hx
    have := hx.1
    simp only [List.mem_filter, bne_iff_ne, ne_eq] at this
    exact this.2
  · simp [delete_author, findAuthor, find?_const_false]

/-- Witness for C8: deleting book 1 (and author 2) of the sample library. -/
theorem delete_semantics_witness :
    (delete_book sampleState 1).1 = .deleted 200 ∧
    delete_book (delete_book sampleState 1).2 1 =
      (.err 404 "Book not found", (delete_book sampleState 1).2) ∧
    delete_book sampleState 42 = (.err 404 "Book not found", sampleState) ∧
    (delete_author sampleState 2).1 = .deleted 200 ∧
    delete_author (delete_author sampleState 2).2 2 =
      (.err 404 "Author not found", (delete_author sampleState 2).2) ∧
    delete_author sampleState 42 = (.err 404 "Author not found", sampleState) := by
  have h := delete_semantics sampleState 1 2
    ⟨1, some "1984", some 1949, some "isbn1"⟩ ⟨2, some "Stephen King", some 1947, some "US"⟩
    (by decide) (by decide)
  exact ⟨h.1.1, h.1.2.2.2.2.2, h.2.1 42 (by decide),
    h.2.2.1.1, h.2.2.1.2.2.2.2.2, h.2.2.2 42 (by decide)⟩

/-- C4: PUT /api/books/{id} has partial-update semantics on an existing
Book and a non-empty payload: each field present in the payload (title,
year, isbn) overwrites the stored value — including a present `null` or
empty value — each absent field is left unchanged, no other Book row is
touched, and the Author table is untouched; symmetrically for
PUT /api/authors/{id} over name, birth_year, country. -/
theorem partial_update_semantics (s : LibState) (idB idA : Nat)
    (book : Book) (author : Author) (p : BookPayload) (q : AuthorPayload)
    (hB : findBook s idB = some book) (hA : findAuthor s idA = some author)
    (hp : p.isEmpty = false) (hq : q.isEmpty = false) :
    (∃ b' as, (update_book s idB (some p)).1 = .bookOk 200 b' as ∧
      findBook (update_book s idB (some p)).2 idB = some b' ∧
      b'.id = book.id ∧
      (p.title = none → b'.title = book.title) ∧ (∀ v, p.title = some v → b'.title = v) ∧
      (p.year = none → b'.year = book.year) ∧ (∀ v, p.year = some v → b'.year = v) ∧
      (p.isbn = none → b'.isbn = book.isbn) ∧ (∀ v, p.isbn = some v → b'.isbn = v)) ∧
    (∀ x ∈ s.books, x.id ≠ idB → x ∈ (update_book s idB (some p)).2.books) ∧
    (update_book s idB (some p)).2.authors = s.authors ∧
    (∃ a' bs, (update_author s idA (some q)).1 = .authorOk 200 a' bs ∧
      findAuthor (update_author s idA (some q)).2 idA = some a' ∧
      a'.id = author.id ∧
      (q.name = none → a'.name = author.name) ∧ (∀ v, q.name = some v → a'.name = v) ∧
      (q.birth_year = none → a'.birth_year = author.birth_year) ∧
      (∀ v, q.birth_year = some v → a'.birth_year = v) ∧
      (q.country = none → a'.country = author.country) ∧
      (∀ v, q.country = some v → a'.country = v)) ∧
    (∀ x ∈ s.authors, x.id ≠ idA → x ∈ (update_author s idA (some q)).2.authors) ∧
    (update_author s idA (some q)).2.books = s.books ∧
    (update_author s idA (some q)).2.assoc = s.assoc := by
  refine ⟨⟨{ book with
      title := applyField p.title book.title,
      year := applyField p.year book.year,
      isbn := applyField p.isbn book.isbn },
      authorsOf (update_book s idB (some p)).2 idB, ?_, ?_, rfl,
      fun h => by simp [applyField, h], fun v hv => by simp [applyField, hv],
      fun h => by simp [applyField, h], fun v hv => by simp [applyField, hv],
      fun h => by simp [applyField, h], fun v hv => by simp [applyField, hv]⟩,
    ?_, ?_,
    ⟨{ author with
      name := applyField q.name author.name,
      birth_year := applyField q.birth_year author.birth_year,
      country := applyField q.country author.country },
      booksOf (update_author s idA (some q)).2 idA, ?_, ?_, rfl,
      fun h => by simp [applyField, h], fun v hv => by simp [applyField, hv],
      fun h => by simp [applyField, h], fun v hv => by simp [applyField, hv],
      fun h => by simp [applyField, h], fun v hv => by simp [applyField, hv]⟩,
    ?_, ?_, ?_⟩
  · simp [update_book, hB, hp]
  · simp only [update_book, hB, hp, Bool.false_eq_true, if_false]
    exact find?_replace_book s.books idB book _ hB rfl
  · intro x hx1 hx2
    simp only [update_book, hB, hp, Bool.false_eq_true, if_false]
    exact List.mem_map.mpr ⟨x, hx1, by simp [hx2]⟩
  · simp [update_book, hB, hp]
  · simp [update_author, hA, hq]
  · simp only [update_author, hA, hq, Bool.false_eq_true, if_false]
    exact find?_replace_author s.authors idA author _ hA rfl
  · intro x hx1 hx2
    simp only [update_author, hA, hq, Bool.false_eq_true, if_false]
    exact List.mem_map.mpr ⟨x, hx1, by simp [hx2]⟩
  · simp [update_author, hA, hq]
  · simp [update_author, hA, hq]

/-- Witness for C4: on the sample library, updating only `year` of book 1
leaves `title` and `isbn` unchanged and sets `year`. -/
theorem partial_update_semantics_witness :
    ∃ b' as, (update_book sampleState 1 (some { year := some (some 1950) })).1 =
        .bookOk 200 b' as ∧
      findBook (update_book sampleState 1 (some { year := some (some 1950) })).2 1 =
        some b' ∧
      b'.title = some "1984" ∧ b'.isbn = some "isbn1" ∧ b'.year = some 1950 := by
  obtain ⟨⟨b', as, h1, h2, _hid, ht0, _ht1, _hy0, hy1, hi0, _hi1⟩, _⟩ :=
    partial_update_semantics sampleState 1 1
      ⟨1, some "1984", some 1949, some "isbn1"⟩
      ⟨1, some "George Orwell", some 1903, some "UK"⟩
      { year := some (some 1950) } { country := some (some "GB") }
      (by decide) (by decide) (by decide) (by decide)
  exact ⟨b', as, h1, h2, ht0 rfl, hi0 rfl, hy1 (some 1950) rfl⟩

/-- C5: when an update payload contains an `author_ids` list, PUT
/api/books/{id} succeeds and fully replaces the Book's association set:
afterwards the Book is linked to exactly the listed ids that name an
existing Author (ids naming no Author are silently skipped, not errors),
while association rows of other Books are untouched; and POST /api/books
with an `author_ids` list links the created Book (id = next book id, in a
state respecting the auto-increment discipline) to exactly the listed
ids that name an existing Author. -/
theorem author_ids_replacement (s : LibState) (idB : Nat) (book : Book)
    (p : BookPayload) (ids : List Nat) (cp : BookPayload) (cids : List Nat)
    (hB : findBook s idB = some book) (hids : p.author_ids = some ids)
    (hct : truthyS cp.title = true)
    (hci : (truthyS cp.isbn && s.books.any (fun b => b.isbn == getS cp.isbn)) = false)
    (hcids : cp.author_ids = some cids)
    (hfresh : ∀ pr ∈ s.assoc, pr.1 ≠ s.nextBookId) :
    ((∃ b' as, (update_book s idB (some p)).1 = .bookOk 200 b' as) ∧
      (∀ aid, (idB, aid) ∈ (update_book s idB (some p)).2.assoc ↔
        aid ∈ ids ∧ (findAuthor s aid).isSome = true) ∧
      (∀ pr : Nat × Nat, pr.1 ≠ idB →
        (pr ∈ (update_book s idB (some p)).2.assoc ↔ pr ∈ s.assoc))) ∧
    ((∃ b' as, (create_book s (some cp)).1 = .bookOk 201 b' as) ∧
      (∀ aid, (s.nextBookId, aid) ∈ (create_book s (some cp)).2.assoc ↔
        aid ∈ cids ∧ (findAuthor s aid).isSome = true)) := by
  have hp : p.isEmpty = false := by
    rcases p with ⟨t, y, i, a⟩
    cases a with
    | none => simp at hids
    | some l => simp [BookPayload.isEmpty]
  have hce : cp.isEmpty = false := truthyS_isEmpty_book cp hct
  have hu : ∃ b' as, (update_book s idB (some p)).1 = .bookOk 200 b' as := by
    refine ⟨{ book with
        title := applyField p.title book.title,
        year := applyField p.year book.year,
        isbn := applyField p.isbn book.isbn },
      authorsOf (update_book s idB (some p)).2 idB, ?_⟩
    simp [update_book, hB, hp]
  have hc : ∃ b' as, (create_book s (some cp)).1 = .bookOk 201 b' as := by
    refine ⟨{
        id := s.nextBookId,
        title := getS cp.title,
        year := getI cp.year,
        isbn := getS cp.isbn },
      authorsOf (create_book s (some cp)).2 s.nextBookId, ?_⟩
    simp [create_book, hce, hct, hci]
  refine ⟨⟨hu, ?_, ?_⟩, ⟨hc, ?_⟩⟩
  · intro aid
    simp only [update_book, hB, hp, Bool.false_eq_true, if_false, hids]
    simp [List.mem_append, List.mem_filter, List.mem_map, resolveAuthors,
      Prod.ext_iff, and_comm]
  · intro pr hpr
    simp only [update_book, hB, hp, Bool.false_eq_true, if_false, hids]
    simp only [List.mem_append, List.mem_filter, List.mem_map]
    constructor
    · rintro (⟨hm, _⟩ | ⟨a2, _, hmk⟩)
      · exact hm
      · exact absurd (congrArg Prod.fst hmk).symm hpr
    · intro hm
      exact Or.inl ⟨hm, by simp [bne_iff_ne]; exact hpr⟩
  · intro aid
    simp only [create_book, hce, hct, hci, Bool.false_eq_true, if_false,
      Bool.not_true, hcids]
    simp only [List.mem_append, List.mem_map, Option.getD_some]
    constructor
    · rintro (hm | ⟨a2, ha2, hmk⟩)
      · exact absurd rfl (hfresh _ hm)
      · have : a2 = aid := (Prod.mk.injEq _ _ _ _).mp hmk |>.2
        subst this
        simpa [resolveAuthors] using ha2
    · intro ⟨h1, h2⟩
      exact Or.inr ⟨aid, by simpa [resolveAuthors] using ⟨h1, h2⟩, rfl⟩

/-- Witness for C5: replacing book 1's authors with ids [2, 77] (77 does
not exist) and creating a book with author ids [1, 99] (99 does not
exist) on the sample library. -/
theorem author_ids_replacement_witness :
    ((1, 2) ∈ (update_book sampleState 1
        (some { author_ids := some [2, 77] })).2.assoc ↔
      2 ∈ [2, 77] ∧ (findAuthor sampleState 2).isSome = true) ∧
    ((1, 77) ∈ (update_book sampleState 1
        (some { author_ids := some [2, 77] })).2.assoc ↔
      77 ∈ [2, 77] ∧ (findAuthor sampleState 77).isSome = true) ∧
    ((4, 1) ∈ (create_book sampleState
        (some { title := some (some "New"), author_ids := some [1, 99] })).2.assoc ↔
      1 ∈ [1, 99] ∧ (findAuthor sampleState 1).isSome = true) ∧
    ((4, 99) ∈ (create_book sampleState
        (some { title := some (some "New"), author_ids := some [1, 99] })).2.assoc ↔
      99 ∈ [1, 99] ∧ (findAuthor sampleState 99).isSome = true) := by
  have h := author_ids_replacement sampleState 1
    ⟨1, some "1984", some 1949, some "isbn1"⟩
    { author_ids := some [2, 77] } [2, 77]
    { title := some (some "New"), author_ids := some [1, 99] } [1, 99]
    (by decide) rfl (by decide) (by decide) rfl (by decide)
  exact ⟨h.1.2.1 2, h.1.2.1 77, h.2.2 1, h.2.2 99⟩

/-- C9: a valid create returns an entity whose id is immediately
retrievable: in a state respecting the auto-increment discipline, after a
successful POST /api/books the created Book is found by get-by-id with
the same id and stored field values, and likewise for POST /api/authors. -/
theorem create_get_stable (s : LibState) (p : BookPayload) (q : AuthorPayload)
    (hfb : ∀ b ∈ s.books, b.id ≠ s.nextBookId)
    (hfa : ∀ a ∈ s.authors, a.id ≠ s.nextAuthorId)
    (hpt : truthyS p.title = true)
    (hpi : (truthyS p.isbn && s.books.any (fun b => b.isbn == getS p.isbn)) = false)
    (hqn : truthyS q.name = true) :
    (∃ b : Book,
      (create_book s (some p)).1 =
        .bookOk 201 b (authorsOf (create_book s (some p)).2 b.id) ∧
      findBook (create_book s (some p)).2 b.id = some b ∧
      get_book (create_book s (some p)).2 b.id =
        .bookOk 200 b (authorsOf (create_book s (some p)).2 b.id)) ∧
    (∃ a : Author,
      (create_author s (some q)).1 =
        .authorOk 201 a (booksOf (create_author s (some q)).2 a.id) ∧
      findAuthor (create_author s (some q)).2 a.id = some a ∧
      get_author (create_author s (some q)).2 a.id =
        .authorOk 200 a (booksOf (create_author s (some q)).2 a.id)) := by
  have hpe := truthyS_isEmpty_book p hpt
  have hqe := truthyS_isEmpty_author q hqn
  have e2 : findBook (create_book s (some p)).2 s.nextBookId =
      some ⟨s.nextBookId, getS p.title, getI p.year, getS p.isbn⟩ := by
    simp only [create_book, hpe, hpt, hpi, Bool.false_eq_true, if_false,
      Bool.not_true, findBook]
    rw [List.find?_append]
    have h1 : s.books.find? (fun b => b.id == s.nextBookId) = none := by
      rw [List.find?_eq_none]
      intro x hx
      simpa using hfb x hx
    rw [h1]
    simp
  have e2a : findAuthor (create_author s (some q)).2 s.nextAuthorId =
      some ⟨s.nextAuthorId, getS q.name, getI q.birth_year, getS q.country⟩ := by
    simp only [create_author, hqe, hqn, Bool.false_eq_true, if_false,
      Bool.not_true, findAuthor]
    rw [List.find?_append]
    have h1 : s.authors.find? (fun a => a.id == s.nextAuthorId) = none := by
      rw [List.find?_eq_none]
      intro x hx
      simpa using hfa x hx
    rw [h1]
    simp
  constructor
  · refine ⟨⟨s.nextBookId, getS p.title, getI p.year, getS p.isbn⟩, ?_, e2, ?_⟩
    · simp [create_book, hpe, hpt, hpi]
    · simp [get_book, e2]
  · refine ⟨⟨s.nextAuthorId, getS q.name, getI q.birth_year, getS q.country⟩, ?_, e2a, ?_⟩
    · simp [create_author, hqe, hqn]
    · simp [get_author, e2a]

/-- Witness for C9: creating a book and an author on the sample library
and re-fetching them by the returned id. -/
theorem create_get_stable_witness :
    (∃ b : Book,
      (create_book sampleState (some { title := some (some "Dune") })).1 =
        .bookOk 201 b
          (authorsOf (create_book sampleState (some { title := some (some "Dune") })).2 b.id) ∧
      findBook (create_book sampleState (some { title := some (some "Dune") })).2 b.id =
        some b ∧
      get_book (create_book sampleState (some { title := some (some "Dune") })).2 b.id =
        .bookOk 200 b
          (authorsOf (create_book sampleState (some { title := some (some "Dune") })).2 b.id)) ∧
    (∃ a : Author,
      (create_author sampleState (some { name := some (some "Frank Herbert") })).1 =
        .authorOk 201 a
          (booksOf (create_author sampleState (some { name := some (some "Frank Herbert") })).2 a.id) ∧
      findAuthor (create_author sampleState (some { name := some (some "Frank Herbert") })).2 a.id =
        some a ∧
      get_author (create_author sampleState (some { name := some (some "Frank Herbert") })).2 a.id =
        .authorOk 200 a
          (booksOf (create_author sampleState (some { name := some (some "Frank Herbert") })).2 a.id)) :=
  create_get_stable sampleState { title := some (some "Dune") }
    { name := some (some "Frank Herbert") }
    (by decide) (by decide) (by decide) (by decide) (by decide)

/-- Counterexample for C2: with two books of distinct ISBNs "X" and "Y",
PUT /api/books/2 with `isbn = "X"` is answered 200 (not a 400 conflict)
and leaves a state in which two Books carry the same non-null ISBN — the
update handler performs no duplicate-ISBN check. -/
theorem isbn_unique_update_cex :
    NonNullIsbnUnique dupIsbnState ∧
    (update_book dupIsbnState 2 (some { isbn := some (some "X") })).1 =
      .bookOk 200 ⟨2, some "B", none, some "X"⟩ [] ∧
    ¬ NonNullIsbnUnique (update_book dupIsbnState 2 (some { isbn := some (some "X") })).2 := by
  decide

/-- C2 amended: the application enforces ISBN uniqueness only on create
and only for non-empty ISBNs — POST /api/books preserves the invariant
"no two Books share a non-null, non-empty ISBN" and rejects a payload
whose non-empty supplied ISBN already exists with a 400 conflict; the
update handler performs no such check (see the counterexample). -/
theorem create_preserves_isbn_uniqueness (s : LibState) (data? : Option BookPayload)
    (h : NonEmptyIsbnUnique s) :
    NonEmptyIsbnUnique (create_book s data?).2 ∧
    (∀ p str, data? = some p → truthyS p.title = true → p.isbn = some (some str) →
      str ≠ "" → (∃ b ∈ s.books, b.isbn = some str) →
      create_book s data? = (.err 400 "ISBN already exists", s)) := by
  constructor
  · cases data? with
    | none => simpa [create_book] using h
    | some p =>
      by_cases he : p.isEmpty = true
      · simpa [create_book, he] using h
      · rw [Bool.not_eq_true] at he
        by_cases ht : truthyS p.title = true
        · by_cases hg : (truthyS p.isbn && s.books.any (fun b => b.isbn == getS p.isbn)) = true
          · simpa [create_book, he, ht, hg] using h
          · rw [Bool.not_eq_true] at hg
            simp only [create_book, he, ht, hg, Bool.false_eq_true, if_false,
              Bool.not_true]
            rw [NonEmptyIsbnUnique] at h ⊢
            simp only
            rw [List.pairwise_append]
            refine ⟨h, by simp, ?_⟩
            intro b1 hb1 b2 hb2 hn1 hn2
            simp only [List.mem_singleton] at hb2
            subst hb2
            rcases Bool.and_eq_false_iff.mp hg with hti | hany
            · rcases p with ⟨t, y, i, a⟩
              rcases i with _ | iv
              · simpa [getS] using hn1
              · rcases iv with _ | str
                · simpa [getS] using hn1
                · have : str = "" := by simpa [truthyS] using hti
                  subst this
                  simpa [getS] using hn2
            · rw [List.any_eq_false] at hany
              have := hany b1 hb1
              simpa using this
        · simpa [create_book, he, ht] using h
  · rintro p str hdp hpt hpisbn hstr ⟨b, hb, hbisbn⟩
    subst hdp
    have he := truthyS_isEmpty_book p hpt
    have hti : truthyS p.isbn = true := by simp [truthyS, hpisbn, hstr]
    have hany : s.books.any (fun b => b.isbn == getS p.isbn) = true := by
      rw [List.any_eq_true]
      exact ⟨b, hb, by simp [getS, hpisbn, hbisbn]⟩
    simp [create_book, he, hpt, hti, hany]

/-- Witness for C2's amended theorem: on the sample library (whose ISBNs
are unique), creating a book with the existing ISBN "isbn2" is rejected,
and creating one with a fresh ISBN preserves the invariant. -/
theorem create_preserves_isbn_uniqueness_witness :
    NonEmptyIsbnUnique
      (create_book sampleState
        (some { title := some (some "Q"), isbn := some (some "isbn9") })).2 ∧
    create_book sampleState
        (some { title := some (some "Q"), isbn := some (some "isbn2") }) =
      (.err 400 "ISBN already exists", sampleState) := by
  refine ⟨(create_preserves_isbn_uniqueness sampleState
      (some { title := some (some "Q"), isbn := some (some "isbn9") }) (by decide)).1, ?_⟩
  exact (create_preserves_isbn_uniqueness sampleState
      (some { title := some (some "Q"), isbn := some (some "isbn2") }) (by decide)).2
    { title := some (some "Q"), isbn := some (some "isbn2") } "isbn2"
    rfl (by decide) rfl (by decide) ⟨⟨2, some "Animal Farm", some 1945, some "isbn2"⟩, by decide, rfl⟩

/-- Counterexample for C6: with a stored Book whose ISBN is the empty
string, a payload supplying that same ISBN `""` is answered 201 (created),
not a 400 conflict — Python's truthiness test `data.get('isbn')` skips the
duplicate check for an empty-string ISBN. -/
theorem create_empty_isbn_cex :
    (∃ b ∈ emptyIsbnState.books, b.isbn = some "") ∧
    (create_book emptyIsbnState
        (some { title := some (some "B"), isbn := some (some "") })).1 =
      .bookOk 201 ⟨2, some "B", none, some ""⟩ [] := by
  decide

/-- C6 amended: POST /api/books fails 400 ("No data provided") on a
missing body or empty payload, 400 ("Title is required") on a payload
with a missing/null/empty title, 400 ("ISBN already exists") when the
supplied non-empty ISBN is stored on another Book; a present-but-empty or
null isbn is treated as absent by the duplicate check; in the remaining
cases it succeeds with 201 returning the created Book (stored field
values from the payload) serialized with its authors. -/
theorem create_book_contract (s : LibState) (p : BookPayload) :
    create_book s none = (.err 400 "No data provided", s) ∧
    (p.isEmpty = true → create_book s (some p) = (.err 400 "No data provided", s)) ∧
    (truthyS p.title = false → p.isEmpty = false →
      create_book s (some p) = (.err 400 "Title is required", s)) ∧
    (∀ str, truthyS p.title = true → p.isbn = some (some str) → str ≠ "" →
      (∃ b ∈ s.books, b.isbn = some str) →
      create_book s (some p) = (.err 400 "ISBN already exists", s)) ∧
    (truthyS p.title = true →
      (∀ str, p.isbn = some (some str) → str ≠ "" → ∀ b ∈ s.books, b.isbn ≠ some str) →
      ∃ b : Book, (create_book s (some p)).1 =
          .bookOk 201 b (authorsOf (create_book s (some p)).2 b.id) ∧
        b.id = s.nextBookId ∧ b.title = getS p.title ∧ b.year = getI p.year ∧
        b.isbn = getS p.isbn ∧ b ∈ (create_book s (some p)).2.books) := by
  refine ⟨by simp [create_book], fun he => by simp [create_book, he],
    fun ht he => by simp [create_book, he, ht], ?_, ?_⟩
  · rintro str hpt hpisbn hstr ⟨b, hb, hbisbn⟩
    have he := truthyS_isEmpty_book p hpt
    have hti : truthyS p.isbn = true := by simp [truthyS, hpisbn, hstr]
    have hany : s.books.any (fun b => b.isbn == getS p.isbn) = true := by
      rw [List.any_eq_true]
      exact ⟨b, hb, by simp [getS, hpisbn, hbisbn]⟩
    simp [create_book, he, hpt, hti, hany]
  · intro hpt hno
    have he := truthyS_isEmpty_book p hpt
    have hg : (truthyS p.isbn && s.books.any (fun b => b.isbn == getS p.isbn)) = false := by
      rcases hpi : p.isbn with _ | iv
      · simp [truthyS, hpi]
      · rcases iv with _ | str
        · simp [truthyS, hpi]
        · by_cases hstr : str = ""
          · simp [truthyS, hpi, hstr]
          · have h2 : s.books.any (fun b => b.isbn == getS (some (some str))) = false := by
              rw [List.any_eq_false]
              intro b hb
              simpa [getS] using hno str hpi hstr b hb
            exact Bool.and_eq_false_iff.mpr (Or.inr h2)
    refine ⟨⟨s.nextBookId, getS p.title, getI p.year, getS p.isbn⟩, ?_, rfl, rfl, rfl, rfl, ?_⟩
    · simp [create_book, he, hpt, hg]
    · simp [create_book, he, hpt, hg]

/-- Witness for C6's amended theorem: on the sample library — missing
body, empty payload, missing title, duplicate ISBN "isbn1", and a clean
create, each answered as the contract states. -/
theorem create_book_contract_witness :
    create_book sampleState none = (.err 400 "No data provided", sampleState) ∧
    create_book sampleState (some ⟨none, none, none, none⟩) =
      (.err 400 "No data provided", sampleState) ∧
    create_book sampleState (some { year := some (some 5) }) =
      (.err 400 "Title is required", sampleState) ∧
    create_book sampleState
        (some { title := some (some "T"), isbn := some (some "isbn1") }) =
      (.err 400 "ISBN already exists", sampleState) ∧
    (∃ b : Book, (create_book sampleState (some { title := some (some "T") })).1 =
        .bookOk 201 b
          (authorsOf (create_book sampleState (some { title := some (some "T") })).2 b.id) ∧
      b.id = sampleState.nextBookId ∧
      b.title = getS ({ title := some (some "T") : BookPayload }).title ∧
      b.year = getI ({ title := some (some "T") : BookPayload }).year ∧
      b.isbn = getS ({ title := some (some "T") : BookPayload }).isbn ∧
      b ∈ (create_book sampleState (some { title := some (some "T") })).2.books) := by
  refine ⟨(create_book_contract sampleState ⟨none, none, none, none⟩).1,
    (create_book_contract sampleState ⟨none, none, none, none⟩).2.1 (by decide),
    (create_book_contract sampleState { year := some (some 5) }).2.2.1
      (by decide) (by decide),
    (create_book_contract sampleState
        { title := some (some "T"), isbn := some (some "isbn1") }).2.2.2.1
      "isbn1" (by decide) rfl (by decide)
      ⟨⟨1, some "1984", some 1949, some "isbn1"⟩, by decide, rfl⟩,
    (create_book_contract sampleState { title := some (some "T") }).2.2.2.2
      (by decide) (fun str h => nomatch h)⟩

/-- Counterexample for C3: the query "_" reaches the LIKE pattern `%_%`
unescaped, so it matches the title "ab" although "ab" does not contain
"_" as a substring — B1 is not the case-insensitive-substring match set
for queries containing LIKE wildcards. -/
theorem search_wildcard_cex :
    search_all wildTitleState "_" =
      .searchOk 200 [⟨1, some "ab", none, none⟩] [] 1 0 ∧
    (⟨1, some "ab", none, none⟩ : Book) ∈ searchB1 wildTitleState "_" ∧
    containsCI "_" "ab" = false := by
  decide

/-- C3 amended: for every query containing no LIKE wildcard (`%` or `_`),
B1 is exactly the set of Books whose title contains the query as a
case-insensitive substring, and A1 likewise for Author names; a query
containing `%` or `_` is instead interpreted as a LIKE pattern (see the
counterexample). -/
theorem search_substring_no_wildcards (s : LibState) (q : String)
    (hw : noWildQ q = true) :
    (∀ b, b ∈ searchB1 s q ↔ b ∈ s.books ∧
      ∃ t, b.title = some t ∧ containsCI q t = true) ∧
    (∀ a, a ∈ searchA1 s q ↔ a ∈ s.authors ∧
      ∃ t, a.name = some t ∧ containsCI q t = true) := by
  have key : ∀ t : String, likeMatch ('%' :: (q.data ++ ['%'])) t.data = containsCI q t :=
    fun t => like_contains q.data t.data (by simpa [noWildQ] using hw)
  constructor
  · intro b
    rw [searchB1, List.mem_filter]
    refine and_congr_right (fun _ => ?_)
    cases hb : b.title with
    | none => simp [titleIlike, hb]
    | some t => simp [titleIlike, hb, key t]
  · intro a
    rw [searchA1, List.mem_filter]
    refine and_congr_right (fun _ => ?_)
    cases ha : a.name with
    | none => simp [nameIlike, ha]
    | some t => simp [nameIlike, ha, key t]

/-- Witness for C3's amended theorem: the wildcard-free query "orwell" on
the sample library. -/
theorem search_substring_no_wildcards_witness :
    (∀ b, b ∈ searchB1 sampleState "orwell" ↔ b ∈ sampleState.books ∧
      ∃ t, b.title = some t ∧ containsCI "orwell" t = true) ∧
    (∀ a, a ∈ searchA1 sampleState "orwell" ↔ a ∈ sampleState.authors ∧
      ∃ t, a.name = some t ∧ containsCI "orwell" t = true) :=
  search_substring_no_wildcards sampleState "orwell" (by decide)

theorem mem_searchBooksRes (s : LibState) (q : String) (b : Book) :
    b ∈ searchBooksRes s q ↔ b ∈ s.books ∧ (titleIlike q b = true ∨
      ∃ a ∈ s.authors, nameIlike q a = true ∧ (b.id, a.id) ∈ s.assoc) := by
  rw [searchBooksRes, List.mem_dedup, List.mem_append]
  simp only [searchB1, searchA1, List.mem_filter, List.mem_flatMap, mem_booksOf]
  tauto

theorem mem_searchAuthorsRes (s : LibState) (q : String) (a : Author) :
    a ∈ searchAuthorsRes s q ↔ a ∈ s.authors ∧ (nameIlike q a = true ∨
      ∃ b ∈ s.books, titleIlike q b = true ∧ (b.id, a.id) ∈ s.assoc) := by
  rw [searchAuthorsRes, List.mem_dedup, List.mem_append]
  simp only [searchB1, searchA1, List.mem_filter, List.mem_flatMap, mem_authorsOf]
  tauto

/-- C1: for every state and non-whitespace query, the search response's
book set is exactly B1 (title matches) together with every Book of every
Author in A1 (name matches), duplicate-free; the author set is exactly A1
together with every Author of every Book in B1, duplicate-free;
book_count and author_count are the sizes of these sets; in particular an
Author whose name matches is returned together with every Book credited
to them. -/
theorem search_result_sets (s : LibState) (q : String) (hq : pyStrip q ≠ "") :
    ∃ B A, search_all s q = .searchOk 200 B A B.length A.length ∧
      B.Nodup ∧ A.Nodup ∧
      (∀ b, b ∈ B ↔ b ∈ s.books ∧ (titleIlike (pyStrip q) b = true ∨
        ∃ a ∈ s.authors, nameIlike (pyStrip q) a = true ∧ (b.id, a.id) ∈ s.assoc)) ∧
      (∀ a, a ∈ A ↔ a ∈ s.authors ∧ (nameIlike (pyStrip q) a = true ∨
        ∃ b ∈ s.books, titleIlike (pyStrip q) b = true ∧ (b.id, a.id) ∈ s.assoc)) ∧
      (∀ a ∈ s.authors, nameIlike (pyStrip q) a = true →
        a ∈ A ∧ ∀ b ∈ s.books, (b.id, a.id) ∈ s.assoc → b ∈ B) := by
  refine ⟨searchBooksRes s (pyStrip q), searchAuthorsRes s (pyStrip q),
    by simp [search_all, hq], List.nodup_dedup _, List.nodup_dedup _,
    fun b => mem_searchBooksRes s (pyStrip q) b,
    fun a => mem_searchAuthorsRes s (pyStrip q) a, ?_⟩
  intro a ha hn
  refine ⟨(mem_searchAuthorsRes s (pyStrip q) a).mpr ⟨ha, Or.inl hn⟩, ?_⟩
  intro b hb hassoc
  exact (mem_searchBooksRes s (pyStrip q) b).mpr ⟨hb, Or.inr ⟨a, ha, hn, hassoc⟩⟩

/-- Witness for C1: searching "orwell" prefixed with a no-break space
(stripped by Python's `str.strip()`) on the sample library yields
duplicate-free result sets whose lengths are the reported counts, with
the matching author and the author-expansion book "1984" among them. -/
theorem search_result_sets_witness :
    ∃ B A, search_all sampleState "\u00A0orwell" =
        .searchOk 200 B A B.length A.length ∧
      B.Nodup ∧ A.Nodup ∧
      (⟨1, some "1984", some 1949, some "isbn1"⟩ : Book) ∈ B ∧
      (⟨1, some "George Orwell", some 1903, some "UK"⟩ : Author) ∈ A := by
  obtain ⟨B, A, h1, h2, h3, h4, h5, _⟩ :=
    search_result_sets sampleState "\u00A0orwell" (by decide)
  refine ⟨B, A, h1, h2, h3, ?_, ?_⟩
  · exact (h4 _).mpr ⟨by decide,
      Or.inr ⟨⟨1, some "George Orwell", some 1903, some "UK"⟩,
        by decide, by decide, by decide⟩⟩
  · exact (h5 _).mpr ⟨by decide, Or.inl (by decide)⟩
